import Mathlib

/-!
Verification of the turn-taking pipeline of the voice assistant in
`src/main.py` (class `LiveSpeechRecognition`).

The Python class is embedded shallowly:

* `AppState` holds the instance attributes that the claims are about
  (`is_processing`, `stop_requested`, `memory`, `transcription_history`,
  `error_log`, ...) together with the bookkeeping that the runtime keeps
  implicitly (how many capture-loop threads were spawned, which AI and
  speaker tasks sit in the thread pool).
* Each method becomes a pure function `AppState → ... → AppState × List Event`;
  the `Event` trace records the side effects (panel updates, task
  submissions, the call to the chat-completion endpoint) in program order.
* The mutable `stop_requested` flag, as read by the streaming loop of
  `_process_with_ai`, is modelled by a signal `Nat → Bool` giving the value
  observed by the n-th read, in program order.
* External outcomes (transcription results, the streamed chunks of the
  Groq completion, ElevenLabs HTTP results) are parameters.
* On top of the per-method functions, `execAct`/`runActs` give an
  interleaving semantics: one action is one atomic slice of a thread
  (a capture-loop dispatch, one micro-step of an AI-turn task, the
  completion of a speaker task), which lets us reason about overlapping
  background tasks.
-/

namespace Assistant

/-- Lower-casing as Python's `str.lower()` does on ASCII text
(`Char.toLower` maps exactly the range A-Z). -/
def strLower (s : String) : String :=
  String.mk (s.data.map Char.toLower)

/-- Does `needle` occur at the head of `hay`? Helper for `occursIn`. -/
def leadMatch : List Char → List Char → Bool
  | [], _ => true
  | _ :: _, [] => false
  | n :: ns, h :: hs => n == h && leadMatch ns hs

/-- Contiguous-substring containment, Python's `needle in hay` on strings. -/
def occursIn : List Char → List Char → Bool
  | needle, [] => leadMatch needle []
  | needle, h :: hs => leadMatch needle (h :: hs) || occursIn needle hs

/-- One dialogue message, the dictionaries `{"role": ..., "content": ...}`
stored in `self.memory`. -/
structure Turn where
  role : String
  content : String
deriving DecidableEq

def userTurn (content : String) : Turn := { role := "user", content := content }

def assistantTurn (content : String) : Turn := { role := "assistant", content := content }

/-- Progress of one `_process_with_ai` task in the thread pool: waiting in
the pool queue, or inside the streaming `for` loop with the accumulated
`ai_response` and the chunks not yet consumed. -/
inductive AiPhase where
  | queued : AiPhase
  | streaming (acc : String) (rest : List (Option String)) : AiPhase
deriving DecidableEq

/-- An in-flight AI-turn task: the utterance it was submitted for and its
current progress. -/
structure AiTask where
  input : String
  phase : AiPhase
deriving DecidableEq

/-- The instance state of `LiveSpeechRecognition`, plus the thread-pool
bookkeeping: `loopThreads` counts the capture-loop threads spawned by
`start_listening`, `aiTasks` the in-flight `_process_with_ai` tasks and
`speakTasks` the in-flight `_speak` tasks. -/
structure AppState where
  triggerWord : String
  personality : String
  groqConfigured : Bool
  isListening : Bool
  loopThreads : Nat
  isProcessing : Bool
  stopRequested : Bool
  memory : List Turn
  transcriptionHistory : List String
  errorLog : List String
  aiTasks : List AiTask
  speakTasks : List String
deriving DecidableEq

/-- `__init__`: the trigger word is lower-cased once at construction;
`groqConfigured` records whether a Groq client was obtained (else the
instance runs in echo mode). -/
def initState (triggerWord personality : String) (groqConfigured : Bool) : AppState :=
  { triggerWord := strLower triggerWord
    personality := personality
    groqConfigured := groqConfigured
    isListening := false
    loopThreads := 0
    isProcessing := false
    stopRequested := false
    memory := []
    transcriptionHistory := []
    errorLog := []
    aiTasks := []
    speakTasks := [] }

/-- Observable side effects, recorded in program order. -/
inductive Event where
  | footer (msg : String)
  | inputPanel (msg : String)
  | outputPanel (msg : String) (title : String)
  | spinner (title : String)
  | consoleMsg (msg : String)
  | submitAI (input : String)
  | submitSpeak (text : String)
  | appendTurn (t : Turn)
  | respondCall (messages : List Turn)
  | playAudio (text : String)
deriving DecidableEq

/-- Outcome of `recognizer.recognize_google(audio)`. -/
inductive Transcription where
  | ok (text : String)
  | unintelligible
  | requestError (msg : String)
deriving DecidableEq

/-- Outcome of `groq_client.chat.completions.create(...)`: a finished
stream of chunk contents (`chunk.choices[0].delta.content`, which may be
`None`), or an exception carrying a message. -/
inductive RespondOutcome where
  | ok (chunks : List (Option String))
  | err (msg : String)
deriving DecidableEq

/-- Outcome of the ElevenLabs request in `_speak`: HTTP 200, a non-200
status, or an exception. -/
inductive SpeakOutcome where
  | success
  | httpError (status : Nat)
  | exn (msg : String)
deriving DecidableEq

/-- `start_listening`: sets `is_listening` and unconditionally spawns a
fresh `_listen_loop` thread. -/
def startListening (s : AppState) : AppState :=
  { s with isListening := true, loopThreads := s.loopThreads + 1 }

/-- `stop_listening`: clears `is_listening` and sets `stop_requested`. -/
def stopListening (s : AppState) : AppState :=
  { s with isListening := false, stopRequested := true }

/-- `_process_input`: if the (lower-cased) trigger word occurs in the
lower-cased input, either start an AI turn (Groq configured: set
`is_processing` and submit `_process_with_ai` to the pool) or emit the
echo response; otherwise only a footer notice. -/
def processInput (s : AppState) (userInput : String) : AppState × List Event :=
  if occursIn s.triggerWord.data (strLower userInput).data then
    if s.groqConfigured then
      ({ s with isProcessing := true
                aiTasks := s.aiTasks ++ [{ input := userInput, phase := AiPhase.queued }] },
       [Event.submitAI userInput])
    else
      (s, [Event.outputPanel ("Echo: " ++ userInput) "Echo Response"])
  else
    (s, [Event.footer ("Trigger word \x27" ++ s.triggerWord ++ "\x27 not detected.")])

/-- `_process_audio`: on a recognized text, update the input panel, append
to the transcription history, then: a case-insensitive "stop" sets
`stop_requested` and short-circuits; otherwise the text is dispatched to
`_process_input` only when `is_processing` is false. -/
def processAudio (s : AppState) (r : Transcription) : AppState × List Event :=
  match r with
  | Transcription.ok text =>
    let s1 := { s with transcriptionHistory := s.transcriptionHistory ++ [text] }
    let e0 := [Event.inputPanel ("You said: " ++ text)]
    if strLower text = "stop" then
      ({ s1 with stopRequested := true },
       e0 ++ [Event.footer "Stop requested. Finishing current process..."])
    else if s1.isProcessing = false then
      let r1 := processInput s1 text
      (r1.1, e0 ++ r1.2)
    else
      (s1, e0)
  | Transcription.unintelligible =>
    (s, [Event.footer "Could not understand audio"])
  | Transcription.requestError msg =>
    ({ s with errorLog := s.errorLog ++ ["Request error: " ++ msg] },
     [Event.footer ("Request error: " ++ msg)])

/-- The system message `{"role": "system", "content": f"personality: ..."}`
prepended to the history on every completion call. -/
def systemTurn (s : AppState) : Turn :=
  { role := "system", content := "personality: " ++ s.personality }

/-- The streaming `for chunk in completion` loop of `_process_with_ai`:
`sig n` is the value of `self.stop_requested` observed by the n-th read,
`i` counts the reads performed so far, `acc` is `ai_response`. Returns the
total number of reads, the accumulated response, and whether the loop was
exited by `break`. -/
def streamLoop (sig : Nat → Bool) : Nat → String → List (Option String) → Nat × String × Bool
  | i, acc, [] => (i, acc, false)
  | i, acc, c :: cs =>
    if sig i then (i + 1, acc, true)
    else streamLoop sig (i + 1) (acc ++ c.getD "") cs

/-- `_process_with_ai`: append the user turn, call the completion endpoint
with the system message prepended to the full memory, consume the stream
checking `stop_requested` before each chunk, and afterwards re-read the
flag: if it is clear, append the assistant turn, display it and submit a
speaker task; on an exception, log it and fall back to the echo response.
The `finally` block resets `is_processing` and `stop_requested` on every
path. -/
def processWithAI (s : AppState) (userInput : String) (outcome : RespondOutcome)
    (sig : Nat → Bool) : AppState × List Event :=
  let e0 := [Event.footer "Processing with AI...", Event.spinner "Processing..."]
  let s1 := { s with memory := s.memory ++ [userTurn userInput] }
  let eu := [Event.appendTurn (userTurn userInput)]
  match outcome with
  | RespondOutcome.err msg =>
    ({ s1 with errorLog := s1.errorLog ++ ["AI processing error: " ++ msg]
               isProcessing := false
               stopRequested := false },
     e0 ++ eu ++
       [Event.footer ("AI processing error: " ++ msg),
        Event.outputPanel ("Echo: " ++ userInput) "Echo Response",
        Event.footer "AI processing complete."])
  | RespondOutcome.ok chunks =>
    let ec := [Event.respondCall (systemTurn s :: s1.memory)]
    let r := streamLoop sig 0 "" chunks
    if sig r.1 then
      ({ s1 with isProcessing := false, stopRequested := false },
       e0 ++ eu ++ ec ++ [Event.footer "AI processing complete."])
    else
      ({ s1 with memory := s1.memory ++ [assistantTurn r.2.1]
                 speakTasks := s1.speakTasks ++ [r.2.1]
                 isProcessing := false
                 stopRequested := false },
       e0 ++ eu ++ ec ++
         [Event.appendTurn (assistantTurn r.2.1),
          Event.outputPanel r.2.1 "AI Response",
          Event.submitSpeak r.2.1,
          Event.footer "AI processing complete."])

/-- `_speak`: POST to ElevenLabs; on 200 play the audio, otherwise log the
status or the exception. The `finally` block sets `is_processing := false`
in every case, even though `_speak` never set it. -/
def speak (s : AppState) (text : String) (o : SpeakOutcome) : AppState × List Event :=
  match o with
  | SpeakOutcome.success =>
    ({ s with isProcessing := false }, [Event.playAudio text])
  | SpeakOutcome.httpError status =>
    ({ s with errorLog := s.errorLog ++ ["Error in speech synthesis: " ++ toString status]
              isProcessing := false },
     [Event.consoleMsg ("Error in speech synthesis: " ++ toString status)])
  | SpeakOutcome.exn msg =>
    ({ s with errorLog := s.errorLog ++ ["Error in speech synthesis: " ++ msg]
              isProcessing := false },
     [Event.consoleMsg ("Error in speech synthesis: " ++ msg)])

/-- `save_transcription_history` / `save_error_log` both run
`for line in entries: file.write(f"{line}\n")` on a freshly opened file:
the file content is this left fold. -/
def writeLines (entries : List String) : String :=
  entries.foldl (fun acc line => acc ++ line ++ "\n") ""

def saveTranscriptionHistory (s : AppState) : String :=
  writeLines s.transcriptionHistory

def saveErrorLog (s : AppState) : String :=
  writeLines s.errorLog

/-- Terminator-style line splitting: each newline character ends a line.
Used to read back the files written by `writeLines`. -/
def splitNl : List Char → List (List Char)
  | [] => []
  | c :: cs =>
    if c = '\n' then [] :: splitNl cs
    else
      match splitNl cs with
      | [] => [[c]]
      | l :: ls => (c :: l) :: ls

/-- One micro-step of an in-flight `_process_with_ai` task, at the
granularity of the thread scheduler: a queued task starts by appending the
user turn and opening the stream; a streaming task either observes
`stop_requested` (break, then the post-loop check and the `finally` run,
clearing the flags without appending), consumes one chunk, or — stream
exhausted, flag clear — appends the assistant turn, submits the speaker
task and runs the `finally`. Returns the updated shared state and the
task's next phase (`none` when the task returned). -/
def aiMicroStep (responder : String → List (Option String)) (s : AppState) (t : AiTask) :
    AppState × Option AiPhase :=
  match t.phase with
  | AiPhase.queued =>
    ({ s with memory := s.memory ++ [userTurn t.input] },
     some (AiPhase.streaming "" (responder t.input)))
  | AiPhase.streaming acc rest =>
    if s.stopRequested then
      ({ s with isProcessing := false, stopRequested := false }, none)
    else
      match rest with
      | [] =>
        ({ s with memory := s.memory ++ [assistantTurn acc]
                  speakTasks := s.speakTasks ++ [acc]
                  isProcessing := false
                  stopRequested := false }, none)
      | c :: cs => (s, some (AiPhase.streaming (acc ++ c.getD "") cs))

/-- An atomic slice of one thread's execution, as the scheduler may
interleave them: a `start_listening`/`stop_listening` call, the capture
loop dispatching one recognized utterance, one micro-step of the i-th
AI-turn task, or the i-th speaker task running to completion. -/
inductive Act where
  | startL
  | stopL
  | hear (text : String)
  | aiStep (i : Nat)
  | speakDone (i : Nat) (o : SpeakOutcome)

/-- Interleaving semantics: apply one action to the shared state. Actions
addressing a task index that does not exist are no-ops. -/
def execAct (responder : String → List (Option String)) (s : AppState) : Act → AppState
  | Act.startL => startListening s
  | Act.stopL => stopListening s
  | Act.hear text => (processAudio s (Transcription.ok text)).1
  | Act.aiStep i =>
    match s.aiTasks[i]? with
    | none => s
    | some t =>
      let r := aiMicroStep responder s t
      match r.2 with
      | some ph => { r.1 with aiTasks := s.aiTasks.set i { t with phase := ph } }
      | none => { r.1 with aiTasks := s.aiTasks.eraseIdx i }
  | Act.speakDone i o =>
    match s.speakTasks[i]? with
    | none => s
    | some text => { (speak s text o).1 with speakTasks := s.speakTasks.eraseIdx i }

/-- Run a schedule of actions from a state. -/
def runActs (responder : String → List (Option String)) (s : AppState) : List Act → AppState
  | [] => s
  | a :: rest => runActs responder (execAct responder s a) rest

/-- The default construction `LiveSpeechRecognition()` with a Groq client
successfully initialized. -/
def s0 : AppState :=
  initState "bob" "You\x27re a nice guy called bob" true

/-- The default construction when no Groq client is available (echo mode). -/
def sEcho : AppState :=
  initState "bob" "You\x27re a nice guy called bob" false

/-- A concrete responder environment: every request streams the single
chunk "hello". -/
def demoResponder : String → List (Option String) := fun _ => [some "hello"]

/-- The concatenation of a finished stream's chunk contents, `None`
replaced by the empty string. -/
def concatChunks (cs : List (Option String)) : String :=
  cs.foldl (fun a c => a ++ c.getD "") ""

/-- A concrete stop signal: `stop_requested` is observed true from the
second read onwards. -/
def demoStopSig : Nat → Bool := fun i => decide (1 ≤ i)

/-- A concrete stop signal: `stop_requested` is observed true at every
read (it was set before the turn began and nothing cleared it). -/
def alwaysStop : Nat → Bool := fun _ => true

/-- A concrete state with non-empty logs, for evaluating the save
functions. -/
def sLogs : AppState :=
  { s0 with transcriptionHistory := ["hello bob", "stop"]
            errorLog := ["Request error: boom"] }

/-- A schedule on which two AI turns end up in flight at once: the first
turn completes and leaves its speaker task pending; a second turn starts
streaming; the speaker task finishes and its `finally` clears
`is_processing`; a third triggered utterance is then dispatched even
though the second turn is still streaming. -/
def overlapSchedule : List Act :=
  [Act.hear "bob one", Act.aiStep 0, Act.aiStep 0, Act.aiStep 0,
   Act.hear "bob two", Act.aiStep 0, Act.speakDone 0 SpeakOutcome.success,
   Act.hear "bob three"]

/-- The character-level content written by `writeLines`, entry by entry. -/
def linesData : List String → List Char
  | [] => []
  | e :: es => e.data ++ '\n' :: linesData es

theorem append_data (a b : String) : (a ++ b).data = a.data ++ b.data := by
  rw [String.congr_append]

theorem processInput_stopRequested (s : AppState) (t : String) :
    (processInput s t).1.stopRequested = s.stopRequested := by
  unfold processInput
  split
  · split <;> rfl
  · rfl

theorem streamLoop_no_stop (sig : Nat → Bool) (h : ∀ i, sig i = false) :
    ∀ (cs : List (Option String)) (i : Nat) (acc : String),
      streamLoop sig i acc cs =
        (i + cs.length, cs.foldl (fun a c => a ++ c.getD "") acc, false) := by
  intro cs
  induction cs with
  | nil => intro i acc; simp [streamLoop]
  | cons c cs ih =>
    intro i acc
    rw [streamLoop, if_neg (by simp [h i]), ih (i + 1) (acc ++ c.getD "")]
    have h1 : i + 1 + cs.length = i + (c :: cs).length := by
      simp only [List.length_cons]
      omega
    rw [h1]
    simp [List.foldl_cons]

theorem streamLoop_sees_stop (sig : Nat → Bool)
    (hmono : ∀ i j, i ≤ j → sig i = true → sig j = true) :
    ∀ (cs : List (Option String)) (i : Nat) (acc : String) (j : Nat),
      i ≤ j → j ≤ i + cs.length → sig j = true →
      sig (streamLoop sig i acc cs).1 = true := by
  intro cs
  induction cs with
  | nil =>
    intro i acc j hij hji hsj
    have hj : j = i := by
      simp only [List.length_nil, Nat.add_zero] at hji
      omega
    subst hj
    simpa [streamLoop] using hsj
  | cons c cs ih =>
    intro i acc j hij hji hsj
    by_cases hsi : sig i = true
    · rw [streamLoop, if_pos hsi]
      exact hmono i (i + 1) (Nat.le_succ i) hsi
    · have hne : j ≠ i := by
        intro e
        rw [e] at hsj
        exact hsi hsj
      rw [streamLoop, if_neg hsi]
      refine ih (i + 1) (acc ++ c.getD "") j (by omega) ?_ hsj
      simp only [List.length_cons] at hji
      omega

/-- C1: on every exit path of `_process_with_ai` — completed stream,
stream aborted by a stop request, or an exception from the Responder —
the `finally` block resets `is_processing` and `stop_requested` to false
before the task returns, so both flags are clear before the next
utterance is evaluated. -/
theorem ai_turn_resets_flags (s : AppState) (text : String) (o : RespondOutcome)
    (sig : Nat → Bool) :
    (processWithAI s text o sig).1.isProcessing = false ∧
    (processWithAI s text o sig).1.stopRequested = false := by
  cases o with
  | err msg => simp [processWithAI]
  | ok chunks =>
    simp only [processWithAI]
    split <;> simp

/-- C3: an utterance whose lower-casing equals the literal word "stop"
sets `stop_requested` and short-circuits `_process_audio`: the only
effects are the input-panel update, the transcription-history append and
the footer notice — no trigger check, no echo, no AI dispatch. -/
theorem stop_utterance_short_circuits (s : AppState) (text : String)
    (h : strLower text = "stop") :
    processAudio s (Transcription.ok text) =
      ({ s with transcriptionHistory := s.transcriptionHistory ++ [text]
                stopRequested := true },
       [Event.inputPanel ("You said: " ++ text),
        Event.footer "Stop requested. Finishing current process..."]) := by
  simp [processAudio, h]

/-- C3 witness: the concrete utterance "STOP" against the default state. -/
theorem stop_utterance_short_circuits_witness :
    strLower "STOP" = "stop" ∧
    processAudio s0 (Transcription.ok "STOP") =
      ({ s0 with transcriptionHistory := s0.transcriptionHistory ++ ["STOP"]
                 stopRequested := true },
       [Event.inputPanel ("You said: " ++ "STOP"),
        Event.footer "Stop requested. Finishing current process..."]) :=
  ⟨by decide, stop_utterance_short_circuits s0 "STOP" (by decide)⟩

/-- C6: with the trigger word present and no Groq client configured,
`_process_input` emits exactly the echo output `"Echo: " ++ input` and
returns the state unchanged — in particular `memory` (the
ConversationState) is untouched. -/
theorem echo_mode_leaves_state_unchanged (s : AppState) (text : String)
    (htr : occursIn s.triggerWord.data (strLower text).data = true)
    (hg : s.groqConfigured = false) :
    processInput s text = (s, [Event.outputPanel ("Echo: " ++ text) "Echo Response"]) := by
  simp [processInput, htr, hg]

/-- C6 witness: the scenario input "bob tell me a joke" against the echo
mode default state; the emitted output is literally
"Echo: bob tell me a joke". -/
theorem echo_mode_leaves_state_unchanged_witness :
    occursIn sEcho.triggerWord.data (strLower "bob tell me a joke").data = true ∧
    sEcho.groqConfigured = false ∧
    processInput sEcho "bob tell me a joke" =
      (sEcho, [Event.outputPanel "Echo: bob tell me a joke" "Echo Response"]) := by
  refine ⟨by decide, by decide, ?_⟩
  rw [echo_mode_leaves_state_unchanged sEcho "bob tell me a joke" (by decide) (by decide)]
  decide

/-- C7: an exception from the Responder is caught at the AI-turn
boundary: the error is appended to the error log, the turn degrades to
the echo response for that utterance, and the `finally` block resets
`is_processing` (and `stop_requested`); the embedded task returns
normally, so nothing propagates to the capture loop. -/
theorem responder_error_degrades_to_echo (s : AppState) (text msg : String)
    (sig : Nat → Bool) :
    processWithAI s text (RespondOutcome.err msg) sig =
      ({ s with memory := s.memory ++ [userTurn text]
                errorLog := s.errorLog ++ ["AI processing error: " ++ msg]
                isProcessing := false
                stopRequested := false },
       [Event.footer "Processing with AI...", Event.spinner "Processing...",
        Event.appendTurn (userTurn text),
        Event.footer ("AI processing error: " ++ msg),
        Event.outputPanel ("Echo: " ++ text) "Echo Response",
        Event.footer "AI processing complete."]) := by
  simp [processWithAI]

/-- C2 (amended): an utterance whose lower-casing is not "stop" and which
arrives while `is_processing` is true is dropped by `_process_audio`: the
state changes only by the transcription-history append — `memory` and the
set of in-flight tasks are untouched — and the only effect is the
input-panel update; nothing is queued and no AI task is submitted. (The
single-flight check itself holds, but it does not make AI turns
non-overlapping: see the counterexample for the original claim.) -/
theorem busy_utterance_dropped (s : AppState) (text : String)
    (hp : s.isProcessing = true) (hs : ¬ strLower text = "stop") :
    processAudio s (Transcription.ok text) =
      ({ s with transcriptionHistory := s.transcriptionHistory ++ [text] },
       [Event.inputPanel ("You said: " ++ text)]) := by
  simp [processAudio, hs, hp]

/-- C2 witness for the amended drop property: "bob hi" arriving while
`is_processing` is true is dropped. -/
theorem busy_utterance_dropped_witness :
    ({ s0 with isProcessing := true } : AppState).isProcessing = true ∧
    ¬ strLower "bob hi" = "stop" ∧
    processAudio { s0 with isProcessing := true } (Transcription.ok "bob hi") =
      ({ s0 with isProcessing := true
                 transcriptionHistory := s0.transcriptionHistory ++ ["bob hi"] },
       [Event.inputPanel ("You said: " ++ "bob hi")]) :=
  ⟨by decide, by decide,
    busy_utterance_dropped { s0 with isProcessing := true } "bob hi" (by decide) (by decide)⟩

/-- C2 counterexample: two AI turns can overlap. On `overlapSchedule` the
first turn completes and leaves its speaker task pending; while the
second turn ("bob two") is still streaming, the speaker task's `finally`
clears `is_processing` (after 7 actions the task list still holds
"bob two" but `is_processing` is already false), so the next triggered
utterance "bob three" is dispatched and two AI-turn tasks are in flight
at once — the claim that an utterance arriving while an AI task is in
flight is never submitted fails here. -/
theorem two_ai_turns_can_overlap :
    (runActs demoResponder s0 (overlapSchedule.take 7)).aiTasks.map AiTask.input =
      ["bob two"] ∧
    (runActs demoResponder s0 (overlapSchedule.take 7)).isProcessing = false ∧
    (runActs demoResponder s0 overlapSchedule).aiTasks.map AiTask.input =
      ["bob two", "bob three"] ∧
    (runActs demoResponder s0 overlapSchedule).aiTasks.length = 2 := by
  decide

/-- C4: if `stop_requested` is observed true at some read during (or
right after) the streaming loop — the signal being monotone, as a flag
that is only set during the turn — then the turn discards everything
accumulated: only the user turn is appended, no assistant turn, no
speaker task is submitted (`speakTasks` untouched, no `submitSpeak`
event), and the `finally` resets `is_processing`. -/
theorem stop_mid_stream_discards (s : AppState) (text : String)
    (chunks : List (Option String)) (sig : Nat → Bool)
    (hmono : ∀ i j, i ≤ j → sig i = true → sig j = true)
    (hstop : ∃ j, j ≤ chunks.length ∧ sig j = true) :
    processWithAI s text (RespondOutcome.ok chunks) sig =
      ({ s with memory := s.memory ++ [userTurn text]
                isProcessing := false
                stopRequested := false },
       [Event.footer "Processing with AI...", Event.spinner "Processing...",
        Event.appendTurn (userTurn text),
        Event.respondCall (systemTurn s :: (s.memory ++ [userTurn text])),
        Event.footer "AI processing complete."]) := by
  obtain ⟨j, hj, hsj⟩ := hstop
  have hfin : sig (streamLoop sig 0 "" chunks).1 = true :=
    streamLoop_sees_stop sig hmono chunks 0 "" j (Nat.zero_le j) (by omega) hsj
  simp [processWithAI, hfin]

/-- C4 witness: a stop observed at the second read of a two-chunk stream
aborts the turn for "bob hi". -/
theorem stop_mid_stream_discards_witness :
    demoStopSig 1 = true ∧
    processWithAI s0 "bob hi" (RespondOutcome.ok [some "a", some "b"]) demoStopSig =
      ({ s0 with memory := s0.memory ++ [userTurn "bob hi"]
                 isProcessing := false
                 stopRequested := false },
       [Event.footer "Processing with AI...", Event.spinner "Processing...",
        Event.appendTurn (userTurn "bob hi"),
        Event.respondCall (systemTurn s0 :: (s0.memory ++ [userTurn "bob hi"])),
        Event.footer "AI processing complete."]) :=
  ⟨by decide,
    stop_mid_stream_discards s0 "bob hi" [some "a", some "b"] demoStopSig
      (by
        intro i j hij hi
        simp only [demoStopSig, decide_eq_true_eq] at hi ⊢
        omega)
      ⟨1, by decide, by decide⟩⟩

/-- C5: a triggered utterance with no AI task in flight and the Groq
client configured submits exactly one AI task, and the AI turn — run with
a stop signal that stays false — appends exactly one user turn and one
assistant turn, in that order: the user turn is appended before the
completion call (the messages passed to it end with that user turn) and
the assistant turn is appended before the speaker task is submitted. -/
theorem triggered_turn_appends_in_order (s : AppState) (text : String)
    (chunks : List (Option String)) (sig : Nat → Bool)
    (hp : s.isProcessing = false)
    (hs : ¬ strLower text = "stop")
    (htr : occursIn s.triggerWord.data (strLower text).data = true)
    (hg : s.groqConfigured = true)
    (hsig : ∀ i, sig i = false) :
    (processAudio s (Transcription.ok text)).2 =
      [Event.inputPanel ("You said: " ++ text), Event.submitAI text] ∧
    (processAudio s (Transcription.ok text)).1.isProcessing = true ∧
    processWithAI s text (RespondOutcome.ok chunks) sig =
      ({ s with memory := s.memory ++ [userTurn text, assistantTurn (concatChunks chunks)]
                speakTasks := s.speakTasks ++ [concatChunks chunks]
                isProcessing := false
                stopRequested := false },
       [Event.footer "Processing with AI...", Event.spinner "Processing...",
        Event.appendTurn (userTurn text),
        Event.respondCall (systemTurn s :: (s.memory ++ [userTurn text])),
        Event.appendTurn (assistantTurn (concatChunks chunks)),
        Event.outputPanel (concatChunks chunks) "AI Response",
        Event.submitSpeak (concatChunks chunks),
        Event.footer "AI processing complete."]) := by
  refine ⟨?_, ?_, ?_⟩
  · simp [processAudio, processInput, hs, hp, htr, hg]
  · simp [processAudio, processInput, hs, hp, htr, hg]
  · have hrun := streamLoop_no_stop sig hsig chunks 0 ""
    simp [processWithAI, hrun, hsig, concatChunks]

/-- C5 witness: the concrete triggered utterance "hey bob" with a
two-chunk stream and a never-set stop flag. -/
theorem triggered_turn_appends_in_order_witness :
    s0.isProcessing = false ∧
    s0.groqConfigured = true ∧
    occursIn s0.triggerWord.data (strLower "hey bob").data = true ∧
    ((processAudio s0 (Transcription.ok "hey bob")).2 =
      [Event.inputPanel ("You said: " ++ "hey bob"), Event.submitAI "hey bob"] ∧
    (processAudio s0 (Transcription.ok "hey bob")).1.isProcessing = true ∧
    processWithAI s0 "hey bob" (RespondOutcome.ok [some "hi ", some "there"]) (fun _ => false) =
      ({ s0 with
          memory := s0.memory ++
            [userTurn "hey bob",
             assistantTurn (concatChunks [some "hi ", some "there"])]
          speakTasks := s0.speakTasks ++ [concatChunks [some "hi ", some "there"]]
          isProcessing := false
          stopRequested := false },
       [Event.footer "Processing with AI...", Event.spinner "Processing...",
        Event.appendTurn (userTurn "hey bob"),
        Event.respondCall (systemTurn s0 :: (s0.memory ++ [userTurn "hey bob"])),
        Event.appendTurn (assistantTurn (concatChunks [some "hi ", some "there"])),
        Event.outputPanel (concatChunks [some "hi ", some "there"]) "AI Response",
        Event.submitSpeak (concatChunks [some "hi ", some "there"]),
        Event.footer "AI processing complete."])) :=
  ⟨by decide, by decide, by decide,
    triggered_turn_appends_in_order s0 "hey bob" [some "hi ", some "there"] (fun _ => false)
      (by decide) (by decide) (by decide) (by decide) (fun _ => rfl)⟩

/-- C8 (amended): `start_listening` is not idempotent: every call sets
`is_listening` and unconditionally spawns a fresh capture-loop thread, so
a second call while the loop is already running spawns a duplicate
loop. -/
theorem start_listening_spawns_loop_each_call
    (responder : String → List (Option String)) (s : AppState) :
    (execAct responder s Act.startL).isListening = true ∧
    (execAct responder s Act.startL).loopThreads = s.loopThreads + 1 ∧
    (execAct responder (execAct responder s Act.startL) Act.startL).loopThreads =
      s.loopThreads + 2 := by
  refine ⟨rfl, rfl, rfl⟩

/-- C8 counterexample: starting twice from the freshly constructed state
spawns two capture-loop threads, so the second call did spawn a duplicate
loop while the first was already running. -/
theorem second_start_spawns_duplicate_loop :
    (runActs demoResponder s0 [Act.startL]).loopThreads = 1 ∧
    (runActs demoResponder s0 [Act.startL]).isListening = true ∧
    (runActs demoResponder s0 [Act.startL, Act.startL]).loopThreads = 2 := by
  decide

/-- C10: once `stop_requested` is set with no AI task in flight, nothing
clears it — `stop_listening` only sets it, `_process_audio` leaves it set
on every path, and `_speak` never touches it — until the next AI turn's
`finally` runs; that turn (its every flag read observing true) still
appends its user turn and calls the completion endpoint, but discards all
streamed output: no assistant turn, no speaker task, and the cleanup
finally resets both flags. -/
theorem pending_stop_persists_and_aborts_next_turn (s : AppState) (r : Transcription)
    (text : String) (chunks : List (Option String)) (sig : Nat → Bool)
    (hpre : s.stopRequested = true)
    (hsig : ∀ i, sig i = true) :
    (stopListening s).stopRequested = true ∧
    (processAudio s r).1.stopRequested = true ∧
    (∀ t o, (speak s t o).1.stopRequested = true) ∧
    processWithAI s text (RespondOutcome.ok chunks) sig =
      ({ s with memory := s.memory ++ [userTurn text]
                isProcessing := false
                stopRequested := false },
       [Event.footer "Processing with AI...", Event.spinner "Processing...",
        Event.appendTurn (userTurn text),
        Event.respondCall (systemTurn s :: (s.memory ++ [userTurn text])),
        Event.footer "AI processing complete."]) := by
  refine ⟨by simp [stopListening], ?_, ?_, ?_⟩
  · cases r with
    | ok t =>
      simp only [processAudio]
      split
      · simp
      · split
        · simp [processInput_stopRequested, hpre]
        · simpa using hpre
    | unintelligible => simpa [processAudio] using hpre
    | requestError m => simpa [processAudio] using hpre
  · intro t o
    cases o <;> simp [speak, hpre]
  · have hfin : sig (streamLoop sig 0 "" chunks).1 = true := hsig _
    simp [processWithAI, hfin]

/-- C10 witness: a pending stop in the default state, a transcription,
and a triggered turn whose every flag read observes true. -/
theorem pending_stop_persists_and_aborts_next_turn_witness :
    ({ s0 with stopRequested := true } : AppState).stopRequested = true ∧
    (stopListening { s0 with stopRequested := true }).stopRequested = true ∧
    (processAudio { s0 with stopRequested := true } (Transcription.ok "hello")).1.stopRequested
      = true ∧
    processWithAI { s0 with stopRequested := true } "bob joke"
        (RespondOutcome.ok [some "x"]) alwaysStop =
      ({ s0 with stopRequested := false
                 memory := s0.memory ++ [userTurn "bob joke"]
                 isProcessing := false },
       [Event.footer "Processing with AI...", Event.spinner "Processing...",
        Event.appendTurn (userTurn "bob joke"),
        Event.respondCall
          (systemTurn { s0 with stopRequested := true } ::
            (s0.memory ++ [userTurn "bob joke"])),
        Event.footer "AI processing complete."]) := by
  have h := pending_stop_persists_and_aborts_next_turn
    { s0 with stopRequested := true } (Transcription.ok "hello") "bob joke"
    [some "x"] alwaysStop (by decide) (fun _ => rfl)
  exact ⟨by decide, h.1, h.2.1, h.2.2.2⟩

theorem writeLines_data (entries : List String) :
    (writeLines entries).data = linesData entries := by
  have key : ∀ (es : List String) (acc : String),
      (es.foldl (fun a line => a ++ line ++ "\n") acc).data = acc.data ++ linesData es := by
    intro es
    induction es with
    | nil => intro acc; simp [linesData]
    | cons e es ih =>
      intro acc
      rw [List.foldl_cons, ih]
      simp [linesData, append_data]
  have h0 : ("" : String).data = [] := rfl
  simpa [writeLines, h0] using key entries ""

theorem splitNl_line (rest : List Char) :
    ∀ (l : List Char), '\n' ∉ l → splitNl (l ++ '\n' :: rest) = l :: splitNl rest := by
  intro l
  induction l with
  | nil => intro h; simp [splitNl]
  | cons c l ih =>
    intro h
    have hc : ¬ c = '\n' := by
      intro e
      exact h (by simp [e])
    have hl : '\n' ∉ l := by
      intro m
      exact h (List.mem_cons_of_mem _ m)
    rw [List.cons_append, splitNl, if_neg hc, ih hl]

theorem splitNl_writeLines (entries : List String)
    (h : ∀ e ∈ entries, '\n' ∉ e.data) :
    splitNl (writeLines entries).data = entries.map String.data := by
  induction entries with
  | nil => simp [writeLines_data, linesData, splitNl]
  | cons e es ih =>
    have ih2 := ih (fun x hx => h x (List.mem_cons_of_mem _ hx))
    rw [writeLines_data] at ih2 ⊢
    rw [linesData, splitNl_line (linesData es) e.data (h e (List.mem_cons_self _ _)), ih2]
    simp

/-- C9: the files written on shutdown contain exactly the in-memory
entries, one per line, in append order: splitting the written content on
newlines recovers the transcription history and the error log verbatim
(for entries that themselves contain no newline, as recognizer results
and the logged messages are). -/
theorem saved_files_mirror_logs (s : AppState)
    (ht : ∀ e ∈ s.transcriptionHistory, '\n' ∉ e.data)
    (he : ∀ e ∈ s.errorLog, '\n' ∉ e.data) :
    splitNl (saveTranscriptionHistory s).data = s.transcriptionHistory.map String.data ∧
    splitNl (saveErrorLog s).data = s.errorLog.map String.data :=
  ⟨splitNl_writeLines _ ht, splitNl_writeLines _ he⟩

/-- C9 witness: a state with concrete logs; the written files are the
expected newline-terminated texts and split back into the entries. -/
theorem saved_files_mirror_logs_witness :
    saveTranscriptionHistory sLogs = "hello bob\nstop\n" ∧
    saveErrorLog sLogs = "Request error: boom\n" ∧
    (splitNl (saveTranscriptionHistory sLogs).data =
      sLogs.transcriptionHistory.map String.data ∧
    splitNl (saveErrorLog sLogs).data = sLogs.errorLog.map String.data) :=
  ⟨by decide, by decide, saved_files_mirror_logs sLogs (by decide) (by decide)⟩

end Assistant
